import Mathlib

/-!
Verification of the intent-classification and task-dispatch core of the
AIagent_Assistant backend.

The Python source (`backend/services/intent_detector_py.py` and
`backend/services/task_executor_py.py`) is shallowly embedded below.
Strings are modelled as `List Char`; Python's `str.lower` is modelled by
`Char.toLower`, `str.strip` by dropping whitespace on both ends, and the
`in` substring test by an executable infix check.  The `re` patterns of
`CODE_PATTERNS` are embedded via a small derivative-based regular-expression
engine over `Char` predicates (`\w`, `\s` modelled by ASCII word characters
and `Char.isWhitespace`).  The Anthropic client call is modelled as an
abstract provider function `model-name → max_tokens → prompt → Except err text`;
a raised exception is an `Except.error` value.
-/

/-- The character list of a string literal (texts are modelled as `List Char`). -/
def chars (s : String) : List Char := s.data

/-- Model of Python `str.lower()`. -/
def lowerStr (l : List Char) : List Char := l.map Char.toLower

/-- Model of Python `str.strip()`: drop whitespace from both ends. -/
def stripStr (l : List Char) : List Char :=
  ((l.dropWhile Char.isWhitespace).reverse.dropWhile Char.isWhitespace).reverse

/-- Executable model of Python's substring test `needle in hay`. -/
def containsSub (needle : List Char) : List Char → Bool
  | [] => needle.isEmpty
  | c :: rest => needle.isPrefixOf (c :: rest) || containsSub needle rest

theorem containsSub_iff (n h : List Char) : containsSub n h = true ↔ n <:+: h := by
  induction h with
  | nil =>
    simp [containsSub, List.isEmpty_iff]
  | cons c rest ih =>
    simp [containsSub, List.infix_cons_iff, ih, or_comm]

theorem containsSub_eq_false_of_lt {w t : List Char} (h : t.length < w.length) :
    containsSub w t = false := by
  cases hc : containsSub w t with
  | false => rfl
  | true =>
    have hinf : w <:+: t := (containsSub_iff w t).mp hc
    exact absurd hinf.length_le (by omega)

theorem stripStr_infix_self (l : List Char) : stripStr l <:+: l := by
  obtain ⟨s, hs⟩ : l.dropWhile Char.isWhitespace <:+ l := List.dropWhile_suffix _
  obtain ⟨u, hu⟩ :
      (l.dropWhile Char.isWhitespace).reverse.dropWhile Char.isWhitespace <:+
        (l.dropWhile Char.isWhitespace).reverse := List.dropWhile_suffix _
  refine ⟨s, u.reverse, ?_⟩
  have hm : stripStr l ++ u.reverse = l.dropWhile Char.isWhitespace := by
    have := congrArg List.reverse hu
    simpa [stripStr] using this
  rw [List.append_assoc, hm, hs]

/-- Both ends of the keyword are non-whitespace characters (so stripping the
text cannot destroy an occurrence of the keyword). -/
def okEnds (kw : List Char) : Bool :=
  (match kw.head? with
    | some c => !c.isWhitespace
    | none => false) &&
  (match kw.getLast? with
    | some d => !d.isWhitespace
    | none => false)

theorem infix_dropWhile {p : Char → Bool} {kw l : List Char} {c : Char}
    (hhd : kw.head? = some c) (hc : p c = false) (h : kw <:+: l) :
    kw <:+: l.dropWhile p := by
  obtain ⟨u, v, huv⟩ := h
  obtain ⟨kw', rfl⟩ : ∃ kw', kw = c :: kw' := by
    cases kw with
    | nil => simp at hhd
    | cons a t =>
      simp only [List.head?_cons, Option.some.injEq] at hhd
      exact ⟨t, by rw [hhd]⟩
  rw [← huv, List.append_assoc, List.dropWhile_append]
  split
  · rw [List.cons_append, List.dropWhile_cons, hc]
    exact ⟨[], v, by simp⟩
  · exact ⟨u.dropWhile p, v, by simp⟩

theorem infix_stripStr {kw l : List Char} (hok : okEnds kw = true) (h : kw <:+: l) :
    kw <:+: stripStr l := by
  unfold okEnds at hok
  rw [Bool.and_eq_true] at hok
  obtain ⟨hh, hl⟩ := hok
  cases hhd : kw.head? with
  | none => rw [hhd] at hh; simp at hh
  | some c =>
    rw [hhd] at hh
    cases hlst : kw.getLast? with
    | none => rw [hlst] at hl; simp at hl
    | some d =>
      rw [hlst] at hl
      simp only [Bool.not_eq_eq_eq_not, Bool.not_true] at hh hl
      have h1 : kw <:+: l.dropWhile Char.isWhitespace := infix_dropWhile hhd hh h
      have h2 : kw.reverse <:+: (l.dropWhile Char.isWhitespace).reverse :=
        List.reverse_infix.mpr h1
      have hrev : kw.reverse.head? = some d := by
        rw [← List.getLast?_eq_head?_reverse]; exact hlst
      have h3 := infix_dropWhile hrev hl h2
      unfold stripStr
      rw [← List.reverse_infix, List.reverse_reverse]
      exact h3

/-! ### A small regular-expression engine

`CODE_PATTERNS` of the intent detector is a list of `re` patterns.  They are
embedded as regular expressions over character predicates and executed with
Brzozowski derivatives; `searchRE` models Python's unanchored `re.search`. -/

/-- Regular expressions over character predicates. -/
inductive RE : Type
  | fail : RE
  | eps : RE
  | pred : (Char → Bool) → RE
  | seq : RE → RE → RE
  | alt : RE → RE → RE
  | star : RE → RE

/-- Does the regular expression accept the empty string? -/
def RE.nullable : RE → Bool
  | .fail => false
  | .eps => true
  | .pred _ => false
  | .seq a b => a.nullable && b.nullable
  | .alt a b => a.nullable || b.nullable
  | .star _ => true

/-- Brzozowski derivative of a regular expression by a character. -/
def RE.deriv (c : Char) : RE → RE
  | .fail => .fail
  | .eps => .fail
  | .pred p => if p c then .eps else .fail
  | .seq a b =>
      if a.nullable then .alt (.seq (a.deriv c) b) (b.deriv c)
      else .seq (a.deriv c) b
  | .alt a b => .alt (a.deriv c) (b.deriv c)
  | .star a => .seq (a.deriv c) (.star a)

/-- Whole-string match. -/
def matchRE (r : RE) (s : List Char) : Bool :=
  (s.foldl (fun r c => r.deriv c) r).nullable

/-- A predicate matching any character (used to turn a whole-string match
into an unanchored search, and to embed the `[\s\S]` class). -/
def anyChar : RE := .pred (fun _ => true)

/-- Model of Python `re.search`: some substring matches the pattern. -/
def searchRE (r : RE) (s : List Char) : Bool :=
  matchRE (.seq (.star anyChar) (.seq r (.star anyChar))) s

/-- Literal-string regular expression. -/
def lit (s : String) : RE :=
  s.data.foldr (fun c r => .seq (.pred (fun d => d == c)) r) .eps

/-- Model of the `re` class `\w` (ASCII word characters). -/
def wordChar (c : Char) : Bool := c.isAlphanum || c == '_'

/-- `r+`. -/
def plusRE (r : RE) : RE := .seq r (.star r)

/-- `\s+`. -/
def wsPlus : RE := plusRE (.pred Char.isWhitespace)

/-- `\s*`. -/
def wsStar : RE := .star (.pred Char.isWhitespace)

/-- `\w+`. -/
def wordPlus : RE := plusRE (.pred wordChar)

/-- `[\w.]+`. -/
def wordDotPlus : RE := plusRE (.pred (fun c => wordChar c || c == '.'))

namespace IntentDetector

/-- The `INTENT_KEYWORDS` table of `intent_detector_py.py`, in declaration
order (Python dicts preserve insertion order). -/
def INTENT_KEYWORDS : List (String × List (List Char)) := [
  ("summarization", [chars "summarize", chars "summary", chars "tldr",
    chars "brief", chars "overview", chars "recap", chars "gist",
    chars "key points", chars "main points", chars "condense"]),
  ("sentiment_analysis", [chars "sentiment", chars "feeling", chars "emotion",
    chars "tone", chars "mood", chars "opinion", chars "attitude",
    chars "positive", chars "negative"]),
  ("code_explanation", [chars "explain code", chars "what does this code",
    chars "code explanation", chars "how does this work", chars "analyze code",
    chars "review code", chars "debug", chars "find bugs",
    chars "what is this function"]),
  ("action_items", [chars "action item", chars "action items", chars "todo",
    chars "to-do", chars "task", chars "tasks", chars "next steps",
    chars "follow up", chars "deliverable"]),
  ("youtube_transcript", [chars "youtube.com", chars "youtu.be",
    chars "youtube", chars "video transcript"])]

/-- Model of `INTENT_KEYWORDS.get(intent, [])`. -/
def keywordsFor (intent : String) : List (List Char) :=
  match INTENT_KEYWORDS.find? (fun p => p.1 == intent) with
  | some p => p.2
  | none => []

/-- `IntentDetector._contains_keywords`. -/
def contains_keywords (text : List Char) (intent : String) : Bool :=
  (keywordsFor intent).any (fun kw => containsSub kw text)

/-- The `CODE_PATTERNS` list of `intent_detector_py.py`. -/
def CODE_PATTERNS : List RE := [
  .seq (lit "def") (.seq wsPlus (.seq wordPlus (.seq wsStar (lit "(")))),
  .seq (lit "function") (.seq wsPlus (.seq wordPlus (.seq wsStar (lit "(")))),
  .seq (lit "class") (.seq wsPlus wordPlus),
  .seq (lit "import") (.seq wsPlus wordDotPlus),
  .seq (lit "from") (.seq wsPlus (.seq wordDotPlus (.seq wsPlus (lit "import")))),
  .seq (lit "const") (.seq wsPlus (.seq wordPlus (.seq wsStar (lit "=")))),
  .seq (lit "let") (.seq wsPlus (.seq wordPlus (.seq wsStar (lit "=")))),
  .seq (lit "var") (.seq wsPlus (.seq wordPlus (.seq wsStar (lit "=")))),
  .seq (lit "public") (.seq wsPlus wordPlus),
  .seq (lit "private") (.seq wsPlus wordPlus),
  .seq (lit "```") (.seq (.star anyChar) (lit "```"))]

/-- `IntentDetector._contains_code` (searched on the case-preserved text). -/
def contains_code (text : List Char) : Bool :=
  CODE_PATTERNS.any (fun p => searchRE p text)

/-- The `explanation_words` list of `_contains_explanation_request`. -/
def explanation_words : List (List Char) :=
  [chars "explain", chars "what does", chars "how does", chars "what is",
   chars "analyze", chars "review", chars "understand", chars "clarify"]

/-- `IntentDetector._contains_explanation_request`. -/
def contains_explanation_request (text : List Char) : Bool :=
  explanation_words.any (fun w => containsSub w text)

/-- The `action_verbs` list of `_has_clear_instruction`. -/
def action_verbs : List (List Char) :=
  [chars "summarize", chars "explain", chars "analyze", chars "extract",
   chars "find", chars "list", chars "show", chars "tell", chars "give",
   chars "identify", chars "detect", chars "calculate", chars "convert"]

/-- `IntentDetector._has_clear_instruction` (the `if not text or len(text) < 5`
guard, then the action-verb scan). -/
def has_clear_instruction (text : List Char) : Bool :=
  if text.isEmpty || text.length < 5 then false
  else action_verbs.any (fun v => containsSub v text)

/-- `IntentDetector.detect`: YouTube keywords first, then the code-pattern
plus explanation-phrase branch, then the keyword loop over `INTENT_KEYWORDS`
skipping `youtube_transcript`, then the attachment fallback. -/
def detect (text : List Char) (has_file : Bool) : String :=
  let text_lower := stripStr (lowerStr text)
  if contains_keywords text_lower "youtube_transcript" then "youtube_transcript"
  else if contains_code text && contains_explanation_request text_lower then
    "code_explanation"
  else
    match (INTENT_KEYWORDS.filter (fun p => p.1 != "youtube_transcript")).find?
        (fun p => contains_keywords text_lower p.1) with
    | some p => p.1
    | none =>
      if has_file && !(has_clear_instruction text_lower) then "needs_clarification"
      else "conversational"

/-- `IntentDetector.get_confidence` (floats modelled as rationals; note that
it lowercases but does not strip the text before counting keywords). -/
def get_confidence (text : List Char) (has_file : Bool) : ℚ :=
  let intent := detect text has_file
  if intent = "needs_clarification" then 0
  else
    let text_lower := lowerStr text
    let keyword_matches :=
      (keywordsFor intent).countP (fun kw => containsSub kw text_lower)
    if keyword_matches ≥ 2 then 0.95
    else if keyword_matches = 1 then 0.75
    else 0.5

end IntentDetector

namespace TaskExecutor

/-- The model string constant of `TaskExecutor.__init__`. -/
def model : String := "claude-sonnet-4-20250514"

/-- The Anthropic `messages.create` call, abstracted: a provider maps a model
name, a `max_tokens` ceiling and a prompt to a completion text or an
exception (modelled as `Except.error` with the exception message). -/
abbrev Provider := String → Nat → List Char → Except (List Char) (List Char)

/-- The result dict of the task handlers: `task` label, `result` text and the
`error` flag (absent in Python on success, modelled as `false`). -/
structure TaskResult where
  task : String
  result : List Char
  error : Bool
deriving DecidableEq, Repr

/-- `TaskExecutor._handle_summary`. -/
def handle_summary (provider : Provider) (content _query : List Char) :
    Except (List Char) TaskResult := do
  let prompt := chars "Provide a comprehensive summary in this EXACT format:\n\n**One-line summary:** [Write a single, concise sentence capturing the main point]\n\n**Key Points:**\n• [First key point]\n• [Second key point]\n• [Third key point]\n\n**Detailed Summary:**\n[Write exactly 5 sentences providing a thorough overview of the content. Cover the main themes, important details, and conclusions.]\n\nContent to summarize:\n"
    ++ content ++ chars "\n"
  let text ← provider model 1500 prompt
  pure { task := "summarization", result := text, error := false }

/-- `TaskExecutor._handle_sentiment`. -/
def handle_sentiment (provider : Provider) (content _query : List Char) :
    Except (List Char) TaskResult := do
  let prompt := chars "Analyze the sentiment of the following content and return in this EXACT format:\n\n**Sentiment:** [Choose: Positive, Negative, Neutral, or Mixed]\n**Confidence:** [Provide percentage, e.g., 85%]\n**Justification:** [Write ONE clear sentence explaining why you chose this sentiment]\n\nContent to analyze:\n"
    ++ content ++ chars "\n"
  let text ← provider model 500 prompt
  pure { task := "sentiment_analysis", result := text, error := false }

/-- `TaskExecutor._handle_code`. -/
def handle_code (provider : Provider) (content _query : List Char) :
    Except (List Char) TaskResult := do
  let prompt := chars "Analyze this code and provide a comprehensive explanation in this format:\n\n**Purpose:**\n[Explain what this code is designed to do]\n\n**Logic Explanation:**\n[Provide a step-by-step breakdown of how the code works]\n\n**Bugs/Issues:**\n[Identify any bugs, potential issues, or code smells. If none found, state \"No obvious bugs detected.\"]\n\n**Complexity Analysis:**\n[Provide time and space complexity analysis if applicable. Use Big O notation.]\n\nCode to analyze:\n"
    ++ content ++ chars "\n"
  let text ← provider model 2000 prompt
  pure { task := "code_explanation", result := text, error := false }

/-- `TaskExecutor._handle_actions`. -/
def handle_actions (provider : Provider) (content _query : List Char) :
    Except (List Char) TaskResult := do
  let prompt := chars "Extract all action items, tasks, and to-dos from the following content.\n\nFormat your response as:\n\n**Action Items:**\n1. [Action item with owner if mentioned and deadline if specified]\n2. [Action item with owner if mentioned and deadline if specified]\n...\n\nIf no action items are found, respond with: \"No action items found in the content.\"\n\nContent to analyze:\n"
    ++ content ++ chars "\n"
  let text ← provider model 1000 prompt
  pure { task := "action_items", result := text, error := false }

/-- `TaskExecutor._handle_clarification` (note `content[:200]` in the prompt
and the `"clarification"` task label). -/
def handle_clarification (provider : Provider) (content query : List Char) :
    Except (List Char) TaskResult := do
  let prompt := chars "The user has provided content but hasn\x27t clearly specified what they want to do with it.\n\nAsk them a short, clear clarifying question. Examples:\n- \"What would you like me to do with this content? I can summarize it, analyze sentiment, explain code, extract action items, or answer questions about it.\"\n- \"How can I help you with this file?\"\n- \"What specific information are you looking for from this content?\"\n\nKeep the question friendly and concise. Offer specific options based on what seems most relevant.\n\nUser\x27s query: "
    ++ query ++ chars "\nContent provided: " ++ content.take 200 ++ chars "...\n"
  let text ← provider model 300 prompt
  pure { task := "clarification", result := text, error := false }

/-- `TaskExecutor._handle_conversational` (the context line is included only
when `content != query`). -/
def handle_conversational (provider : Provider) (content query : List Char) :
    Except (List Char) TaskResult := do
  let prompt := chars "Provide a helpful, friendly response to the user\x27s question or comment.\n\nBe concise but informative. If the user is asking about specific content, reference it directly.\n\nUser\x27s query: "
    ++ query ++ chars "\n"
    ++ (if content = query then [] else chars "Context: " ++ content) ++ chars "\n"
  let text ← provider model 1000 prompt
  pure { task := "conversational", result := text, error := false }

/-- The limitation-explanation prompt of `_handle_youtube`'s failure branch
(content without the transcript marker). -/
def youtube_fallback_prompt (query : List Char) : List Char :=
  chars "The user provided a YouTube URL but the transcript could not be fetched automatically.\n\nExplain this limitation politely and suggest:\n1. They can try pasting the transcript manually if they have access to it\n2. They can describe what they\x27d like to know about the video\n3. In a production system, this would use the YouTube Transcript API\n\nUser\x27s query: "
    ++ query ++ chars "\n"

/-- `TaskExecutor._handle_youtube`: branch on the transcript marker, then on
summarize-indicating and sentiment-indicating words in the lowercased query. -/
def handle_youtube (provider : Provider) (content query : List Char) :
    Except (List Char) TaskResult :=
  if containsSub (chars "[YouTube Transcript]:") content then
    if [chars "summarize", chars "summary", chars "tldr"].any
        (fun w => containsSub w (lowerStr query)) then
      handle_summary provider content query
    else if [chars "sentiment", chars "tone"].any
        (fun w => containsSub w (lowerStr query)) then
      handle_sentiment provider content query
    else
      handle_summary provider content query
  else do
    let prompt := youtube_fallback_prompt query
    let text ← provider model 500 prompt
    pure { task := "youtube_transcript", result := text, error := false }

/-- The `handlers` dict of `TaskExecutor.execute` as a partial lookup. -/
def handlers (task_type : String) :
    Option (Provider → List Char → List Char → Except (List Char) TaskResult) :=
  if task_type = "summarization" then some handle_summary
  else if task_type = "sentiment_analysis" then some handle_sentiment
  else if task_type = "code_explanation" then some handle_code
  else if task_type = "action_items" then some handle_actions
  else if task_type = "needs_clarification" then some handle_clarification
  else if task_type = "conversational" then some handle_conversational
  else if task_type = "youtube_transcript" then some handle_youtube
  else none

/-- `TaskExecutor.execute`: `handlers.get(task_type, _handle_conversational)`,
run under a catch-all that converts an exception into an error-flagged
result dict. -/
def execute (provider : Provider) (task_type : String) (content query : List Char) :
    TaskResult :=
  match (handlers task_type).getD handle_conversational provider content query with
  | .ok r => r
  | .error e =>
    { task := task_type, result := chars "Error executing task: " ++ e, error := true }

end TaskExecutor

/-! ### Supporting lemmas about the intent detector -/

namespace IntentDetector

theorem contains_keywords_strip_of_false {text : List Char} {i : String}
    (h : contains_keywords (lowerStr text) i = false) :
    contains_keywords (stripStr (lowerStr text)) i = false := by
  cases hc : contains_keywords (stripStr (lowerStr text)) i with
  | false => rfl
  | true =>
    exfalso
    unfold contains_keywords at hc
    rw [List.any_eq_true] at hc
    obtain ⟨kw, hkw, hsub⟩ := hc
    have h2 : kw <:+: lowerStr text :=
      ((containsSub_iff _ _).mp hsub).trans (stripStr_infix_self _)
    have h3 : contains_keywords (lowerStr text) i = true := by
      unfold contains_keywords
      rw [List.any_eq_true]
      exact ⟨kw, hkw, (containsSub_iff _ _).mpr h2⟩
    rw [h] at h3
    exact Bool.false_ne_true h3

theorem contains_explanation_request_of_short {t : List Char} (h : t.length < 5) :
    contains_explanation_request t = false := by
  unfold contains_explanation_request
  rw [List.any_eq_false]
  have hmin : ∀ w ∈ explanation_words, 5 ≤ w.length := by decide
  intro w hw
  have hlen : t.length < w.length := lt_of_lt_of_le h (hmin w hw)
  simp [containsSub_eq_false_of_lt hlen]

theorem has_clear_instruction_of_short {t : List Char} (h : t.length < 5) :
    has_clear_instruction t = false := by
  simp [has_clear_instruction, h]

theorem strip_lower_length {text : List Char} :
    (stripStr (lowerStr text)).length ≤ text.length := by
  have h1 := (stripStr_infix_self (lowerStr text)).length_le
  simpa [lowerStr] using h1

/-! ### Claim theorems for the intent detector -/

/-- C1: for every text (non-empty) whose lowercased form contains one of the
YouTube-indicating keywords, and for every value of the has-attachment flag,
`detect` returns `youtube_transcript`, regardless of any other keyword or
code-pattern matches in the text (it is the first check in priority order). -/
theorem detect_youtube_priority (text : List Char) (flag : Bool) (_hne : text ≠ [])
    (h : ∃ kw ∈ keywordsFor "youtube_transcript", kw <:+: lowerStr text) :
    detect text flag = "youtube_transcript" := by
  obtain ⟨kw, hmem, hinf⟩ := h
  have hall : ∀ k ∈ keywordsFor "youtube_transcript", okEnds k = true := by decide
  have hstrip : kw <:+: stripStr (lowerStr text) :=
    infix_stripStr (hall kw hmem) hinf
  have hcont : contains_keywords (stripStr (lowerStr text)) "youtube_transcript" = true := by
    unfold contains_keywords
    rw [List.any_eq_true]
    exact ⟨kw, hmem, (containsSub_iff _ _).mpr hstrip⟩
  simp [detect, hcont]

theorem detect_youtube_priority_witness :
    ((chars "check youtube please" : List Char) ≠ [] ∧
      ∃ kw ∈ keywordsFor "youtube_transcript",
        kw <:+: lowerStr (chars "check youtube please")) ∧
    detect (chars "check youtube please") true = "youtube_transcript" :=
  ⟨⟨by decide, ⟨chars "youtube", by decide, by decide⟩⟩,
    detect_youtube_priority (chars "check youtube please") true (by decide)
      ⟨chars "youtube", by decide, by decide⟩⟩

/-- C2 counterexample: the input `"debug"` matches no code pattern, yet
`detect` returns `code_explanation` — through the keyword-scan stage, which
does consult `code_explanation`'s keyword set.  This refutes the claim that
`classify` returns `CodeExplanation` only via the code-pattern branch. -/
theorem detect_code_keyword_cx :
    detect (chars "debug") false = "code_explanation" ∧
    contains_code (chars "debug") = false := by
  constructor
  · rfl
  · rfl

/-- C2 amended: the keyword-scan stage consults the keyword sets of
summarization, sentiment_analysis, code_explanation and action_items, in
declaration order; in particular, when the earlier stages and the
summarization and sentiment keyword sets do not fire but a
`code_explanation` keyword occurs in the stripped lowercased text, `detect`
returns `code_explanation` through its keyword set alone. -/
theorem detect_code_keyword_scan (text : List Char) (flag : Bool)
    (h1 : contains_keywords (stripStr (lowerStr text)) "youtube_transcript" = false)
    (h2 : (contains_code text &&
      contains_explanation_request (stripStr (lowerStr text))) = false)
    (h3 : contains_keywords (stripStr (lowerStr text)) "summarization" = false)
    (h4 : contains_keywords (stripStr (lowerStr text)) "sentiment_analysis" = false)
    (h5 : contains_keywords (stripStr (lowerStr text)) "code_explanation" = true) :
    detect text flag = "code_explanation" := by
  have hfil : INTENT_KEYWORDS.filter (fun p => p.1 != "youtube_transcript") =
      [("summarization", keywordsFor "summarization"),
       ("sentiment_analysis", keywordsFor "sentiment_analysis"),
       ("code_explanation", keywordsFor "code_explanation"),
       ("action_items", keywordsFor "action_items")] := by rfl
  simp only [detect, h1, h2, Bool.false_eq_true, if_false, hfil]
  rw [List.find?_cons_of_neg _ (by simp [h3]),
    List.find?_cons_of_neg _ (by simp [h4]),
    List.find?_cons_of_pos _ (by simp [h5])]

theorem detect_code_keyword_scan_witness :
    (contains_keywords (stripStr (lowerStr (chars "debug"))) "youtube_transcript" = false ∧
      (contains_code (chars "debug") &&
        contains_explanation_request (stripStr (lowerStr (chars "debug")))) = false ∧
      contains_keywords (stripStr (lowerStr (chars "debug"))) "summarization" = false ∧
      contains_keywords (stripStr (lowerStr (chars "debug"))) "sentiment_analysis" = false ∧
      contains_keywords (stripStr (lowerStr (chars "debug"))) "code_explanation" = true) ∧
    detect (chars "debug") true = "code_explanation" :=
  ⟨⟨rfl, rfl, rfl, rfl, rfl⟩,
    detect_code_keyword_scan (chars "debug") true rfl rfl rfl rfl rfl⟩

/-- C3: on empty text, `detect` returns `needs_clarification` when the
has-attachment flag is true and `conversational` when it is false. -/
theorem detect_empty_text :
    detect [] true = "needs_clarification" ∧ detect [] false = "conversational" :=
  ⟨rfl, rfl⟩

/-- Restatement of the confidence computation following the wording of the
spec: re-run classification; `needs_clarification` gives 0; otherwise count
the keywords of the detected intent's own keyword set occurring as
substrings of the lowercased text, giving 0.95 for at least two matches,
0.75 for exactly one and 0.5 for none. -/
def confidence_spec (text : List Char) (has_file : Bool) : ℚ :=
  let intent := detect text has_file
  if intent = "needs_clarification" then 0
  else
    let cnt :=
      ((keywordsFor intent).filter (fun kw => containsSub kw (lowerStr text))).length
    if 2 ≤ cnt then 0.95
    else if cnt = 1 then 0.75
    else 0.5

/-- C4: `get_confidence` re-runs classification and computes exactly the
spec's case split (0 for `needs_clarification`, else 0.95 / 0.75 / 0.5 by
match count of the detected intent's own keyword set in the lowercased
text), and its value always lies in the interval [0,1]. -/
theorem get_confidence_spec_and_bounds (text : List Char) (flag : Bool) :
    get_confidence text flag = confidence_spec text flag ∧
    0 ≤ get_confidence text flag ∧ get_confidence text flag ≤ 1 := by
  refine ⟨?_, ?_⟩
  · simp only [get_confidence, confidence_spec, List.countP_eq_length_filter]
  · simp only [get_confidence]
    split_ifs <;> norm_num

/-- C9: any text strictly shorter than 5 characters whose lowercased form
contains no intent keyword is classified `needs_clarification` when the
has-attachment flag is true: the length guard makes the clear-instruction
test fail before the action-verb set is consulted, and no earlier branch can
fire. -/
theorem detect_short_text_needs_clarification (text : List Char)
    (hlen : text.length < 5)
    (hkw : ∀ p ∈ INTENT_KEYWORDS, contains_keywords (lowerStr text) p.1 = false) :
    detect text true = "needs_clarification" := by
  have hyt : contains_keywords (stripStr (lowerStr text)) "youtube_transcript" = false :=
    contains_keywords_strip_of_false
      (hkw ("youtube_transcript", keywordsFor "youtube_transcript") (by decide))
  have hsum : contains_keywords (stripStr (lowerStr text)) "summarization" = false :=
    contains_keywords_strip_of_false
      (hkw ("summarization", keywordsFor "summarization") (by decide))
  have hsent : contains_keywords (stripStr (lowerStr text)) "sentiment_analysis" = false :=
    contains_keywords_strip_of_false
      (hkw ("sentiment_analysis", keywordsFor "sentiment_analysis") (by decide))
  have hcode : contains_keywords (stripStr (lowerStr text)) "code_explanation" = false :=
    contains_keywords_strip_of_false
      (hkw ("code_explanation", keywordsFor "code_explanation") (by decide))
  have hact : contains_keywords (stripStr (lowerStr text)) "action_items" = false :=
    contains_keywords_strip_of_false
      (hkw ("action_items", keywordsFor "action_items") (by decide))
  have hshort : (stripStr (lowerStr text)).length < 5 :=
    lt_of_le_of_lt strip_lower_length hlen
  have hexp : (contains_code text &&
      contains_explanation_request (stripStr (lowerStr text))) = false := by
    rw [contains_explanation_request_of_short hshort, Bool.and_false]
  have hfil : INTENT_KEYWORDS.filter (fun p => p.1 != "youtube_transcript") =
      [("summarization", keywordsFor "summarization"),
       ("sentiment_analysis", keywordsFor "sentiment_analysis"),
       ("code_explanation", keywordsFor "code_explanation"),
       ("action_items", keywordsFor "action_items")] := by rfl
  have hclear := has_clear_instruction_of_short hshort
  simp only [detect, hyt, hexp, Bool.false_eq_true, if_false, hfil]
  rw [List.find?_cons_of_neg _ (by simp [hsum]),
    List.find?_cons_of_neg _ (by simp [hsent]),
    List.find?_cons_of_neg _ (by simp [hcode]),
    List.find?_cons_of_neg _ (by simp [hact])]
  simp [hclear]

theorem detect_short_text_needs_clarification_witness :
    ((chars "find" : List Char).length < 5 ∧
      ∀ p ∈ INTENT_KEYWORDS,
        contains_keywords (lowerStr (chars "find")) p.1 = false) ∧
    detect (chars "find") true = "needs_clarification" :=
  ⟨⟨by decide, by decide⟩,
    detect_short_text_needs_clarification (chars "find") (by decide) (by decide)⟩

end IntentDetector


/-! ### Supporting lemmas and claim theorems for the task executor -/

namespace TaskExecutor

theorem except_bind_ok {ε α β : Type} {x : Except ε α} {f : α → Except ε β} {b : β}
    (h : x >>= f = Except.ok b) : ∃ a, x = Except.ok a ∧ f a = Except.ok b := by
  cases x with
  | error e =>
    rw [show (Except.error e >>= f : Except ε β) = Except.error e from rfl] at h
    exact Except.noConfusion h
  | ok a =>
    rw [show (Except.ok a >>= f : Except ε β) = f a from rfl] at h
    exact ⟨a, rfl, h⟩

theorem except_do_eq_map {ε α β : Type} (x : Except ε α) (g : α → β) :
    (do let a ← x; pure (g a) : Except ε β) = x.map g := by
  cases x <;> rfl

theorem handle_summary_ok {provider : Provider} {content query : List Char}
    {r : TaskResult} (h : handle_summary provider content query = Except.ok r) :
    r.task = "summarization" ∧ r.error = false := by
  unfold handle_summary at h
  obtain ⟨a, -, hf⟩ := except_bind_ok h
  cases hf
  exact ⟨rfl, rfl⟩

theorem handle_sentiment_ok {provider : Provider} {content query : List Char}
    {r : TaskResult} (h : handle_sentiment provider content query = Except.ok r) :
    r.task = "sentiment_analysis" ∧ r.error = false := by
  unfold handle_sentiment at h
  obtain ⟨a, -, hf⟩ := except_bind_ok h
  cases hf
  exact ⟨rfl, rfl⟩

theorem handle_conversational_ok {provider : Provider} {content query : List Char}
    {r : TaskResult} (h : handle_conversational provider content query = Except.ok r) :
    r.task = "conversational" ∧ r.error = false := by
  unfold handle_conversational at h
  obtain ⟨a, -, hf⟩ := except_bind_ok h
  cases hf
  exact ⟨rfl, rfl⟩

/-- A provider that always succeeds with the completion text `OK`. -/
def okProvider : Provider := fun _ _ _ => Except.ok (chars "OK")

/-- A provider that always raises (an exception with message `boom`). -/
def failProvider : Provider := fun _ _ _ => Except.error (chars "boom")

end TaskExecutor

/-! ### Claim theorems for the task executor -/

namespace TaskExecutor

/-- The clarification prompt as described by the spec: built from the
original query together with only the first 200 characters of the content
(stated here over an already-truncated content argument, to be compared
with the prompt `_handle_clarification` actually builds). -/
def clarification_prompt (query truncated : List Char) : List Char :=
  chars "The user has provided content but hasn\x27t clearly specified what they want to do with it.\n\nAsk them a short, clear clarifying question. Examples:\n- \"What would you like me to do with this content? I can summarize it, analyze sentiment, explain code, extract action items, or answer questions about it.\"\n- \"How can I help you with this file?\"\n- \"What specific information are you looking for from this content?\"\n\nKeep the question friendly and concise. Offer specific options based on what seems most relevant.\n\nUser\x27s query: "
    ++ query ++ chars "\nContent provided: " ++ truncated ++ chars "...\n"

/-- C5: whatever task type, content and query are requested, if the selected
handler raises an exception during execution then `execute` returns (rather
than propagates) a result whose error flag is true, whose task label equals
the requested task type, and whose result text is the human-readable message
built from the exception. -/
theorem execute_catches_errors (provider : Provider) (task_type : String)
    (content query e : List Char)
    (h : (handlers task_type).getD handle_conversational provider content query
      = Except.error e) :
    execute provider task_type content query =
      TaskResult.mk task_type (chars "Error executing task: " ++ e) true := by
  unfold execute
  rw [h]

theorem execute_catches_errors_witness :
    ((handlers "summarization").getD handle_conversational failProvider [] []
      = Except.error (chars "boom")) ∧
    execute failProvider "summarization" [] [] =
      TaskResult.mk "summarization"
        (chars "Error executing task: " ++ chars "boom") true :=
  ⟨rfl, execute_catches_errors failProvider "summarization" [] [] (chars "boom") rfl⟩

/-- C6: a task-type string that is none of the seven recognized intent names
is routed to the conversational handler: the handler table has no entry for
it, and when the conversational handler succeeds, the dispatch result is
exactly the result of a `conversational` request — not an error-shaped
result. -/
theorem execute_unknown_intent (t : String)
    (ht : t ∉ ["summarization", "sentiment_analysis", "code_explanation",
      "action_items", "needs_clarification", "conversational",
      "youtube_transcript"])
    (provider : Provider) (content query : List Char) (r : TaskResult)
    (hok : handle_conversational provider content query = Except.ok r) :
    handlers t = none ∧
    execute provider t content query = r ∧
    execute provider "conversational" content query = r ∧
    r.error = false := by
  simp only [List.mem_cons, List.not_mem_nil, or_false, not_or] at ht
  obtain ⟨h1, h2, h3, h4, h5, h6, h7⟩ := ht
  have hnone : handlers t = none := by
    simp [handlers, h1, h2, h3, h4, h5, h6, h7]
  refine ⟨hnone, ?_, ?_, (handle_conversational_ok hok).2⟩
  · unfold execute
    rw [hnone]
    simp only [Option.getD_none]
    rw [hok]
  · unfold execute
    rw [show handlers "conversational" = some handle_conversational from rfl]
    simp only [Option.getD_some]
    rw [hok]

theorem execute_unknown_intent_witness :
    (("bogus" : String) ∉ ["summarization", "sentiment_analysis",
      "code_explanation", "action_items", "needs_clarification",
      "conversational", "youtube_transcript"] ∧
      handle_conversational okProvider [] [] =
        Except.ok (TaskResult.mk "conversational" (chars "OK") false)) ∧
    handlers "bogus" = none ∧
    execute okProvider "bogus" [] [] =
      TaskResult.mk "conversational" (chars "OK") false ∧
    execute okProvider "conversational" [] [] =
      TaskResult.mk "conversational" (chars "OK") false ∧
    (TaskResult.mk "conversational" (chars "OK") false).error = false :=
  ⟨⟨by decide, rfl⟩,
    execute_unknown_intent "bogus" (by decide) okProvider [] []
      (TaskResult.mk "conversational" (chars "OK") false) rfl⟩

/-- C7 counterexample: with transcript-marked content and the query
`"summarize the sentiment"` — which contains the sentiment-indicating word
`sentiment` — `_handle_youtube` does NOT re-dispatch to the sentiment
handler; it re-dispatches to the summary handler, because the
summarize-word check runs first.  This refutes the claim that a
sentiment-indicating word in the query forces re-dispatch to
SentimentAnalysis. -/
theorem handle_youtube_sentiment_cx :
    containsSub (chars "[YouTube Transcript]:")
      (chars "[YouTube Transcript]: hi") = true ∧
    containsSub (chars "sentiment")
      (lowerStr (chars "summarize the sentiment")) = true ∧
    handle_youtube okProvider (chars "[YouTube Transcript]: hi")
      (chars "summarize the sentiment") =
      Except.ok (TaskResult.mk "summarization" (chars "OK") false) ∧
    handle_sentiment okProvider (chars "[YouTube Transcript]: hi")
      (chars "summarize the sentiment") =
      Except.ok (TaskResult.mk "sentiment_analysis" (chars "OK") false) ∧
    handle_youtube okProvider (chars "[YouTube Transcript]: hi")
      (chars "summarize the sentiment") ≠
      handle_sentiment okProvider (chars "[YouTube Transcript]: hi")
        (chars "summarize the sentiment") := by
  refine ⟨rfl, rfl, rfl, rfl, ?_⟩
  intro h
  rw [show handle_youtube okProvider (chars "[YouTube Transcript]: hi")
        (chars "summarize the sentiment") =
      Except.ok (TaskResult.mk "summarization" (chars "OK") false) from rfl,
    show handle_sentiment okProvider (chars "[YouTube Transcript]: hi")
        (chars "summarize the sentiment") =
      Except.ok (TaskResult.mk "sentiment_analysis" (chars "OK") false) from rfl] at h
  simp at h

/-- C7 amended: on content containing the literal marker
`"[YouTube Transcript]:"`, `_handle_youtube` re-dispatches to the sentiment
handler exactly when the query contains a sentiment-indicating word
(`sentiment`, `tone`) and no summarize-indicating word (`summarize`,
`summary`, `tldr`); in every other marked case (including when both kinds of
word occur) it re-dispatches to the summary handler.  On content without the
marker it issues the limitation-explanation prompt with a 500-token ceiling
and the task label `youtube_transcript`. -/
theorem handle_youtube_dispatch (provider : Provider) (content query : List Char) :
    handle_youtube provider content query =
      if containsSub (chars "[YouTube Transcript]:") content then
        (if ([chars "sentiment", chars "tone"].any
            (fun w => containsSub w (lowerStr query))) &&
            !([chars "summarize", chars "summary", chars "tldr"].any
              (fun w => containsSub w (lowerStr query))) then
          handle_sentiment provider content query
        else
          handle_summary provider content query)
      else
        (provider model 500 (youtube_fallback_prompt query)).map
          (fun text => TaskResult.mk "youtube_transcript" text false) := by
  unfold handle_youtube
  split
  · cases hsum : [chars "summarize", chars "summary", chars "tldr"].any
        (fun w => containsSub w (lowerStr query)) <;>
      cases hsent : [chars "sentiment", chars "tone"].any
        (fun w => containsSub w (lowerStr query)) <;>
      simp [hsum, hsent]
  · exact except_do_eq_map _ _

/-- C8: the clarification handler builds its prompt from the original query
together with only the first 200 characters of the content (truncating the
content before the prompt is formed), calls the provider with a 300-token
ceiling, and labels the result with the string `clarification`, which
differs from the intent name `needs_clarification`. -/
theorem handle_clarification_spec (provider : Provider) (content query : List Char) :
    handle_clarification provider content query =
      (provider model 300 (clarification_prompt query (content.take 200))).map
        (fun text => TaskResult.mk "clarification" text false) ∧
    handle_clarification provider content query =
      handle_clarification provider (content.take 200) query ∧
    ("clarification" : String) ≠ "needs_clarification" := by
  refine ⟨?_, ?_, by decide⟩
  · unfold handle_clarification clarification_prompt
    exact except_do_eq_map _ _
  · unfold handle_clarification
    simp only [List.take_take, Nat.min_self]

/-- C10: whenever `_handle_youtube` succeeds on content containing the
transcript marker, the task label of the returned result is `summarization`
or `sentiment_analysis` — the label of the handler it re-dispatched to — and
never `youtube_transcript`. -/
theorem handle_youtube_success_label (provider : Provider)
    (content query : List Char) (r : TaskResult)
    (hm : containsSub (chars "[YouTube Transcript]:") content = true)
    (hr : handle_youtube provider content query = Except.ok r) :
    (r.task = "summarization" ∨ r.task = "sentiment_analysis") ∧
    r.task ≠ "youtube_transcript" := by
  unfold handle_youtube at hr
  rw [if_pos hm] at hr
  split at hr
  · have h := handle_summary_ok hr
    exact ⟨Or.inl h.1, by rw [h.1]; decide⟩
  · split at hr
    · have h := handle_sentiment_ok hr
      exact ⟨Or.inr h.1, by rw [h.1]; decide⟩
    · have h := handle_summary_ok hr
      exact ⟨Or.inl h.1, by rw [h.1]; decide⟩

theorem handle_youtube_success_label_witness :
    (containsSub (chars "[YouTube Transcript]:")
      (chars "[YouTube Transcript]: hi") = true ∧
      handle_youtube okProvider (chars "[YouTube Transcript]: hi")
        (chars "summarize") =
        Except.ok (TaskResult.mk "summarization" (chars "OK") false)) ∧
    ((TaskResult.mk "summarization" (chars "OK") false).task = "summarization" ∨
      (TaskResult.mk "summarization" (chars "OK") false).task =
        "sentiment_analysis") ∧
    (TaskResult.mk "summarization" (chars "OK") false).task ≠
      "youtube_transcript" :=
  ⟨⟨rfl, rfl⟩,
    handle_youtube_success_label okProvider (chars "[YouTube Transcript]: hi")
      (chars "summarize")
      (TaskResult.mk "summarization" (chars "OK") false) rfl rfl⟩

end TaskExecutor
